import Mathlib

/-!
Verification of the Nexpose API client (`nexpose.py`): site reconciliation,
scan polling, report reconciliation and polling, and report download.

The HTTP transport is modelled by explicit response values: a response has a
numeric status code and an optional parsed JSON body (`none` models a body
that fails JSON parsing, i.e. the `ValueError` branch of the Python code).
Stateful interactions (a lookup request followed by a creation request) are
modelled by passing each request's response, or — where a claim is about two
successive calls against an evolving service — by a small explicit model of
the remote service state, which the spec treats as an external collaborator.
-/

namespace Nexpose

/-- Statuses the client accepts for configuration calls:
`if response.status_code in [200, 201, 202]`. -/
def okStatus : List Nat := [200, 201, 202]

/-- An HTTP response as the client observes it: a status code plus the parsed
JSON body. `body = none` models a 2xx (or any) response whose body fails JSON
parsing (`response.json()` raising `ValueError`). -/
structure HttpResponse (α : Type) where
  status : Nat
  body : Option α
deriving Repr, DecidableEq

/-- One entry of the `resources` array of the site listing. Fields are
optional because the Python code reads them with `dict.get`, which yields
`None` when the key is absent. -/
structure SiteEntry where
  name : Option String
  id : Option Int
deriving Repr, DecidableEq

/-- The loop body of `Site.get_site_id`: scan the `resources` collection for
the first entry whose `name` equals the requested name and return its `id`
field (itself optional — `site.get("id")`). -/
def findSiteId : List SiteEntry → String → Option Int
  | [], _ => none
  | site :: rest, name =>
    if site.name = some name then site.id else findSiteId rest name

/-- Embedding of `Site.get_site_id(name)` over the listing response: on a status in
`[200, 201, 202]` and a parseable body, return the first same-named entry's
id; in every other case (bad status, parse failure, no match) return `None`. -/
def get_site_id (resp : HttpResponse (List SiteEntry)) (name : String) :
    Option Int :=
  if resp.status ∈ okStatus then
    match resp.body with
    | some response_json => findSiteId response_json name
    | none => none
  else none

/-- The `site_data` payload built by `Site.create_site` for the POST. -/
structure SiteData where
  name : String
  description : String
  addresses : List String
  scanTemplateId : String
deriving Repr, DecidableEq

/-- Payload `site_data` as assembled in `Site.create_site` (one included target
address). -/
def site_data (name description target_ip template_id : String) : SiteData :=
  ⟨name, description, [target_ip], template_id⟩

/-- Embedding of `Site.create_site` over explicit responses: `listResp` answers the
internal `get_site_id` GET, `post` answers the creation POST (given the
payload). Returns the Python return value (always `None`: both the
site-already-exists branch and the two creation branches end in a bare
`return` or fall off the end) paired with whether the creation POST was
issued. -/
def create_site (listResp : HttpResponse (List SiteEntry))
    (post : SiteData → HttpResponse Unit)
    (name description target_ip template_id : String) : Option Int × Bool :=
  match get_site_id listResp name with
  | some _ => (none, false)
  | none =>
    let response := post (site_data name description target_ip template_id)
    if response.status ∈ okStatus then (none, true) else (none, true)

/-! ### Model of the remote sites collection (external collaborator)

A minimal deterministic model of the service: listing returns the stored
entries with status 200; creation appends an entry carrying the payload's
name and a fresh id, and answers 201. -/

structure SitesServer where
  sites : List SiteEntry
  nextId : Int
deriving Repr, DecidableEq

def serverListSites (st : SitesServer) : HttpResponse (List SiteEntry) :=
  ⟨200, some st.sites⟩

def serverCreateSite (st : SitesServer) (d : SiteData) :
    HttpResponse Unit × SitesServer :=
  (⟨201, some ()⟩, ⟨st.sites ++ [⟨some d.name, some st.nextId⟩], st.nextId + 1⟩)

/-- Embedding of `Site.create_site` run against the sites-server model, threading the
service state. Result value and POST-issued flag as in `create_site`. -/
def create_site_st (st : SitesServer)
    (name description target_ip template_id : String) :
    (Option Int × Bool) × SitesServer :=
  match get_site_id (serverListSites st) name with
  | some _ => ((none, false), st)
  | none =>
    let (response, st') :=
      serverCreateSite st (site_data name description target_ip template_id)
    if response.status ∈ okStatus then ((none, true), st')
    else ((none, true), st')

/-- Site reconciliation as the module-level flow performs it
(`site.create_site(...)` followed by `site_id = site.get_site_id(name)`):
reconcile, then read the established id back off the service. Returns the
id read back, whether a creation POST was issued, and the final state. -/
def reconcile_site (st : SitesServer)
    (name description target_ip template_id : String) :
    Option Int × Bool × SitesServer :=
  let (rb, st') := create_site_st st name description target_ip template_id
  (get_site_id (serverListSites st') name, rb.2, st')

/-! ### Scans: `Scan.get_last_scan_id` and `Scan.wait_for_scan_completion` -/

/-- An entry of the `links` array of a scan listing. The Python code indexes
`link["rel"]` and `link["href"]` directly, so the fields are mandatory. -/
structure Link where
  rel : String
  href : String
deriving Repr, DecidableEq

/-- One entry of a scan listing's `resources` array; only its `id` is read
(`resources[-1].get("id")`). -/
structure ScanResource where
  id : Option Int
deriving Repr, DecidableEq

/-- A scan listing body: a `links` array and a `resources` array
(`scan_json.get("links", [])`, `last_page_json.get("resources", [])`). -/
structure ScanListing where
  links : List Link
  resources : List ScanResource
deriving Repr, DecidableEq

/-- Embedding of `Scan.get_last_scan_id` over a deterministic snapshot of the service
(`fetch` answers each GET by url). GET the scans listing; on success follow
the first link whose `rel` is `"last"` (or re-GET the listing url when there
is none); on that page's success return the `id` of the last element of its
nonempty `resources`, and `None` in every other case. Both pages' parses sit
in one `try`, so either body failing to parse yields `None`. -/
def get_last_scan_id (fetch : String → HttpResponse ScanListing)
    (scans_url : String) : Option Int :=
  let response := fetch scans_url
  if response.status ∈ okStatus then
    match response.body with
    | none => none
    | some scan_json =>
      let links := scan_json.links
      let last_page_url := (links.find? (fun link => link.rel == "last")).map (·.href)
      let response_last_page :=
        match last_page_url with
        | some u => fetch u
        | none => fetch scans_url
      if response_last_page.status ∈ okStatus then
        match response_last_page.body with
        | none => none
        | some last_page_json =>
          match last_page_json.resources.getLast? with
          | some r => r.id
          | none => none
      else none
  else none

/-- The body of one poll of `GET /scans/{id}`: only `status` is read
(`scan_json.get("status")`, absent key giving `None`). -/
structure ScanStatusBody where
  status : Option String
deriving Repr, DecidableEq

/-- One poll of the scan wait loop observes a terminal value iff the
response status is accepted, the body parses, and the scan status is
`finished` or `stopped`. -/
def scanObservedTerminal (r : HttpResponse ScanStatusBody) : Bool :=
  decide (r.status ∈ okStatus) &&
    match r.body with
    | some scan_json =>
      scan_json.status == some "finished" || scan_json.status == some "stopped"
    | none => false

/-- Embedding of `Scan.wait_for_scan_completion` over a finite sequence of poll
responses: `some (k, v)` means the loop returns during poll number `k`
(1-based) with Python return value `v` (always `None` — the terminal branch
is a bare `return`); `none` means the whole sequence is consumed without
returning (non-2xx responses, parse failures and non-terminal statuses are
all absorbed and the loop sleeps and polls again). -/
def wait_for_scan_completion :
    List (HttpResponse ScanStatusBody) → Option (Nat × Option String)
  | [] => none
  | response :: rest =>
    if response.status ∈ okStatus then
      match response.body with
      | some scan_json =>
        if scan_json.status = some "finished" ∨ scan_json.status = some "stopped"
        then some (1, none)
        else (wait_for_scan_completion rest).map (fun p => (p.1 + 1, p.2))
      | none => (wait_for_scan_completion rest).map (fun p => (p.1 + 1, p.2))
    else (wait_for_scan_completion rest).map (fun p => (p.1 + 1, p.2))

/-! ### Reports: reconciliation, creation and the completion wait -/

/-- One entry of the report-configuration listing: its optional `id` and its
scope's site list (`report.get("scope", {}).get("sites", [])`). -/
structure ReportEntry where
  id : Option Int
  scope : List Int
deriving Repr, DecidableEq

/-- The loop body of `ReportGeneration.get_existing_report`: first entry
whose scope contains the site id; its `id` field is returned as-is. -/
def findReportId : List ReportEntry → Int → Option Int
  | [], _ => none
  | report :: rest, site_id =>
    if site_id ∈ report.scope then report.id else findReportId rest site_id

/-- Embedding of `ReportGeneration.get_existing_report(site_id)` over the listing
response: accepted status and parseable body give the first scoped entry's
id; bad status, parse failure and no match all give `None`. -/
def get_existing_report (resp : HttpResponse (List ReportEntry))
    (site_id : Int) : Option Int :=
  if resp.status ∈ okStatus then
    match resp.body with
    | some response_json => findReportId response_json site_id
    | none => none
  else none

/-- The `report_data` payload of `ReportGeneration.create_report`. -/
structure ReportData where
  name : String
  format : String
  scopeSites : List Int
  template : String
deriving Repr, DecidableEq

/-- Payload `report_data` as assembled in `create_report`: the name embeds the scan
id (`f"{name} report - scan ID {scan_id}"`), the scope is `[site_id]`. -/
def report_data (name : String) (scan_id : Int) (file_format template : String)
    (site_id : Int) : ReportData :=
  ⟨name ++ " report - scan ID " ++ toString scan_id, file_format, [site_id],
    template⟩

/-- The parsed body of the creation POST's response; only
`report_config_json.get("id")` is read. -/
structure ReportPostBody where
  id : Option Int
deriving Repr, DecidableEq

/-- The creation half of `create_report`, from the POST response onward. The
POST response's `.json()` is not wrapped in `try`, so a parse failure there
propagates as an exception, modelled by `Except.error ()`. An accepted
status returns the response's `id` field; any other status returns `None`. -/
def createReportPost (postResp : HttpResponse ReportPostBody) :
    Except Unit (Option Int) × Bool :=
  if postResp.status ∈ okStatus then
    match postResp.body with
    | some report_config_json => (.ok report_config_json.id, true)
    | none => (.error (), true)
  else (.ok none, true)

/-- Embedding of `ReportGeneration.create_report` over explicit responses. The reuse
check is `if report_id:` — Python truthiness — so only a *truthy* id from
`get_existing_report` is reused; `None` and `0` both fall through to the
creation POST. Second component: whether the POST was issued. -/
def create_report (listResp : HttpResponse (List ReportEntry))
    (postResp : HttpResponse ReportPostBody) (site_id scan_id : Int)
    (name file_format template : String) : Except Unit (Option Int) × Bool :=
  match get_existing_report listResp site_id with
  | some report_id =>
    if report_id ≠ 0 then (.ok (some report_id), false)
    else createReportPost postResp
  | none => createReportPost postResp

/-! ### Model of the remote reports collection (external collaborator) -/

structure ReportsServer where
  reports : List ReportEntry
  nextId : Int
deriving Repr, DecidableEq

def serverListReports (st : ReportsServer) : HttpResponse (List ReportEntry) :=
  ⟨200, some st.reports⟩

/-- Creation appends an entry with a fresh id and the payload's scope, and
answers 201 with the new id in the body. -/
def serverCreateReport (st : ReportsServer) (d : ReportData) :
    HttpResponse ReportPostBody × ReportsServer :=
  (⟨201, some ⟨some st.nextId⟩⟩,
    ⟨st.reports ++ [⟨some st.nextId, d.scopeSites⟩], st.nextId + 1⟩)

/-- Embedding of `ReportGeneration.create_report` run against the reports-server model,
threading the service state. -/
def create_report_st (st : ReportsServer) (site_id scan_id : Int)
    (name file_format template : String) :
    Except Unit (Option Int) × Bool × ReportsServer :=
  match get_existing_report (serverListReports st) site_id with
  | some report_id =>
    if report_id ≠ 0 then (.ok (some report_id), false, st)
    else
      let (resp, st') :=
        serverCreateReport st (report_data name scan_id file_format template site_id)
      ((createReportPost resp).1, true, st')
  | none =>
    let (resp, st') :=
      serverCreateReport st (report_data name scan_id file_format template site_id)
    ((createReportPost resp).1, true, st')

/-- The body of one poll of `GET /reports/{id}/history/latest`: `status` and
the `generated` timestamp, both read with `dict.get`. -/
structure ReportHistoryBody where
  status : Option String
  generated : Option String
deriving Repr, DecidableEq

/-- One poll of the report wait loop observes completion iff the response
status is accepted, the body parses, and `status == "complete"`. -/
def reportObservedComplete (r : HttpResponse ReportHistoryBody) : Bool :=
  decide (r.status ∈ okStatus) &&
    match r.body with
    | some report_json => report_json.status == some "complete"
    | none => false

/-- Embedding of `ReportGeneration.wait_for_report_completion` over a finite sequence of
poll responses: `some (k, t)` means the loop returns during poll number `k`
(1-based) with the `generated` timestamp `t` of that poll's body; `none`
means the sequence is consumed without returning. A failed status here is
not even logged before the next retry. -/
def wait_for_report_completion :
    List (HttpResponse ReportHistoryBody) → Option (Nat × Option String)
  | [] => none
  | response :: rest =>
    if response.status ∈ okStatus then
      match response.body with
      | some report_json =>
        if report_json.status = some "complete"
        then some (1, report_json.generated)
        else (wait_for_report_completion rest).map (fun p => (p.1 + 1, p.2))
      | none => (wait_for_report_completion rest).map (fun p => (p.1 + 1, p.2))
    else (wait_for_report_completion rest).map (fun p => (p.1 + 1, p.2))

/-! ### `ReportDownloader.download_report` -/

/-- The observable local effects of `download_report`, in order: directory
creation (`os.makedirs`), the HTTP GET of the report output, and the file
write of the downloaded bytes. -/
inductive DlEvent where
  | mkdirs (path : String)
  | httpGet (url : String)
  | writeFile (path : String)
deriving Repr, DecidableEq

/-- Embedding of `ReportDownloader.download_report` with the filesystem existence check
supplied by `fs_exists` and the download response's status by `status_code`.
Returns the ordered event trace and the Python return value (the save path
on an exact 200, else `None`).

When both `directory_name` and `address` are given, the code checks
existence of the *bare* `directory_name` but creates and saves into
`"{directory_name}_{address}"`; otherwise it uses the fixed `reports`
directory. Directory resolution and creation happen before the GET. -/
def download_report (fs_exists : String → Bool) (status_code : Nat)
    (api_url : String) (report_id : Int) (inst : String)
    (directory_name address : Option String) (save_filename : String) :
    List DlEvent × Option String :=
  let dirPart : List DlEvent × String :=
    match directory_name, address with
    | some dname, some addr =>
      ((if fs_exists dname then []
        else [DlEvent.mkdirs (dname ++ "_" ++ addr)]),
        dname ++ "_" ++ addr ++ "/" ++ save_filename)
    | _, _ =>
      ((if fs_exists "reports" then [] else [DlEvent.mkdirs "reports"]),
        "reports/" ++ save_filename)
  let download_url :=
    api_url ++ "/reports/" ++ toString report_id ++ "/history/" ++ inst
      ++ "/output"
  if status_code = 200 then
    (dirPart.1 ++ [DlEvent.httpGet download_url, DlEvent.writeFile dirPart.2],
      some dirPart.2)
  else
    (dirPart.1 ++ [DlEvent.httpGet download_url], none)

/-! ### Helper lemmas -/

theorem findSiteId_eq_none (sites : List SiteEntry) (name : String)
    (h : ∀ e ∈ sites, e.name ≠ some name) : findSiteId sites name = none := by
  induction sites with
  | nil => rfl
  | cons s rest ih =>
    rw [findSiteId, if_neg (h s (List.mem_cons_self s rest))]
    exact ih fun e he => h e (List.mem_cons_of_mem s he)

theorem findReportId_eq_none (reports : List ReportEntry) (site_id : Int)
    (h : ∀ e ∈ reports, site_id ∉ e.scope) :
    findReportId reports site_id = none := by
  induction reports with
  | nil => rfl
  | cons r rest ih =>
    rw [findReportId, if_neg (h r (List.mem_cons_self r rest))]
    exact ih fun e he => h e (List.mem_cons_of_mem r he)

theorem findReportId_append (reports tail : List ReportEntry) (site_id : Int)
    (h : ∀ e ∈ reports, site_id ∉ e.scope) :
    findReportId (reports ++ tail) site_id = findReportId tail site_id := by
  induction reports with
  | nil => rfl
  | cons r rest ih =>
    rw [List.cons_append, findReportId,
      if_neg (h r (List.mem_cons_self r rest))]
    exact ih fun e he => h e (List.mem_cons_of_mem r he)

theorem createReportPost_snd (p : HttpResponse ReportPostBody) :
    (createReportPost p).2 = true := by
  rcases p with ⟨s, b⟩
  cases b <;> by_cases h : s ∈ okStatus <;> simp [createReportPost, h]

/-! ### Claims -/

/-- C4: the claim says that when a same-named site already exists,
`create_site` returns the existing id. The code prints the id and then
bare-`return`s, so the Python return value is `None`, contradicting the
function's own docstring ("otherwise returns site_id"). At a listing that
contains a site named "A" with id 7, `get_site_id` does find id 7, and
`create_site` issues no creation POST — but returns `None`, not `some 7`. -/
theorem create_site_returns_none_at_existing_site :
    get_site_id ⟨200, some [⟨some "A", some 7⟩]⟩ "A" = some 7 ∧
    create_site ⟨200, some [⟨some "A", some 7⟩]⟩ (fun _ => ⟨201, some ()⟩)
        "A" "description" "10.0.0.1" "tmpl"
      = (none, false) ∧
    create_site ⟨200, some []⟩ (fun _ => ⟨201, some ()⟩)
        "A" "description" "10.0.0.1" "tmpl"
      = (none, true) := by
  refine ⟨rfl, rfl, rfl⟩

/-- C5: `download_report` returns the save path exactly when the HTTP
status of the download response is 200; every other status (201 and 202
included) yields `None`. -/
theorem download_report_success_iff_200 (fs_exists : String → Bool)
    (status_code : Nat) (api_url : String) (report_id : Int) (inst : String)
    (directory_name address : Option String) (save_filename : String) :
    (download_report fs_exists status_code api_url report_id inst
        directory_name address save_filename).2.isSome = true
      ↔ status_code = 200 := by
  by_cases h : status_code = 200 <;> simp [download_report, h]

/-- C5 at concrete statuses 200, 201, 202 and 500. -/
theorem download_report_success_iff_200_witness :
    ((download_report (fun _ => false) 200 "u" 1 "latest" none none
        "report.pdf").2.isSome = true ↔ (200 : Nat) = 200) ∧
    ((download_report (fun _ => false) 201 "u" 1 "latest" none none
        "report.pdf").2.isSome = true ↔ (201 : Nat) = 200) ∧
    ((download_report (fun _ => false) 202 "u" 1 "latest" none none
        "report.pdf").2.isSome = true ↔ (202 : Nat) = 200) :=
  ⟨download_report_success_iff_200 (fun _ => false) 200 "u" 1 "latest" none
      none "report.pdf",
    download_report_success_iff_200 (fun _ => false) 201 "u" 1 "latest" none
      none "report.pdf",
    download_report_success_iff_200 (fun _ => false) 202 "u" 1 "latest" none
      none "report.pdf"⟩

/-- C6: with `directory_name = "2024-01-01"`, `address = "10.0.0.5"` and
filename `"r.pdf"`, a 200 download saves to
`"2024-01-01_10.0.0.5/r.pdf"`; with both omitted and the default filename
`"report.pdf"`, it saves to `"reports/report.pdf"`. -/
theorem download_report_path_composition :
    (download_report (fun _ => false) 200 "u" 1 "latest"
        (some "2024-01-01") (some "10.0.0.5") "r.pdf").2
      = some "2024-01-01_10.0.0.5/r.pdf" ∧
    (download_report (fun _ => false) 200 "u" 1 "latest"
        none none "report.pdf").2
      = some "reports/report.pdf" := by
  refine ⟨rfl, rfl⟩

/-- C10: directory resolution and creation happen before the HTTP GET, so
on a non-200 status the trace still begins with the `makedirs` side effect
(when the checked directory does not yet exist) followed by the GET, while
the return value is `None`. -/
theorem download_report_mkdir_precedes_get :
    (∀ (fs_exists : String → Bool) (status_code : Nat) (api_url : String)
        (report_id : Int) (inst dname addr save_filename : String),
      fs_exists dname = false → status_code ≠ 200 →
      download_report fs_exists status_code api_url report_id inst
          (some dname) (some addr) save_filename
        = ([DlEvent.mkdirs (dname ++ "_" ++ addr),
            DlEvent.httpGet (api_url ++ "/reports/" ++ toString report_id
              ++ "/history/" ++ inst ++ "/output")], none)) ∧
    (∀ (fs_exists : String → Bool) (status_code : Nat) (api_url : String)
        (report_id : Int) (inst save_filename : String),
      fs_exists "reports" = false → status_code ≠ 200 →
      download_report fs_exists status_code api_url report_id inst
          none none save_filename
        = ([DlEvent.mkdirs "reports",
            DlEvent.httpGet (api_url ++ "/reports/" ++ toString report_id
              ++ "/history/" ++ inst ++ "/output")], none)) := by
  constructor
  · intro fs_exists status_code api_url report_id inst dname addr fn hfs hst
    simp [download_report, hfs, hst]
  · intro fs_exists status_code api_url report_id inst fn hfs hst
    simp [download_report, hfs, hst]

/-- C10 at a concrete failed download (status 500, fresh directory). -/
theorem download_report_mkdir_precedes_get_witness :
    download_report (fun _ => false) 500 "u" 1 "latest"
        (some "2024-01-01") (some "10.0.0.5") "r.pdf"
      = ([DlEvent.mkdirs "2024-01-01_10.0.0.5",
          DlEvent.httpGet "u/reports/1/history/latest/output"], none) ∧
    download_report (fun _ => false) 500 "u" 1 "latest" none none "r.pdf"
      = ([DlEvent.mkdirs "reports",
          DlEvent.httpGet "u/reports/1/history/latest/output"], none) :=
  ⟨download_report_mkdir_precedes_get.1 (fun _ => false) 500 "u" 1 "latest"
      "2024-01-01" "10.0.0.5" "r.pdf" rfl (by decide),
    download_report_mkdir_precedes_get.2 (fun _ => false) 500 "u" 1 "latest"
      "r.pdf" rfl (by decide)⟩

/-- C7: for both lookup functions, a 2xx response whose `resources` contain
no match and a 2xx response whose body fails JSON parsing are observably
equal to the caller — both yield `None`, with no distinct error category. -/
theorem lookup_missing_vs_malformed_indistinguishable
    (name : String) (sites : List SiteEntry) (site_id : Int)
    (reports : List ReportEntry) (s₁ s₂ s₃ s₄ : Nat)
    (h₁ : s₁ ∈ okStatus) (h₂ : s₂ ∈ okStatus)
    (h₃ : s₃ ∈ okStatus) (h₄ : s₄ ∈ okStatus)
    (hsites : ∀ e ∈ sites, e.name ≠ some name)
    (hreports : ∀ e ∈ reports, site_id ∉ e.scope) :
    (get_site_id ⟨s₁, some sites⟩ name = get_site_id ⟨s₂, none⟩ name ∧
      get_site_id ⟨s₂, none⟩ name = none) ∧
    (get_existing_report ⟨s₃, some reports⟩ site_id
        = get_existing_report ⟨s₄, none⟩ site_id ∧
      get_existing_report ⟨s₄, none⟩ site_id = none) := by
  refine ⟨⟨?_, ?_⟩, ⟨?_, ?_⟩⟩
  · rw [get_site_id, if_pos h₁, get_site_id, if_pos h₂]
    exact findSiteId_eq_none sites name hsites
  · rw [get_site_id, if_pos h₂]
  · rw [get_existing_report, if_pos h₃, get_existing_report, if_pos h₄]
    exact findReportId_eq_none reports site_id hreports
  · rw [get_existing_report, if_pos h₄]

/-- C7 at a concrete no-match listing (one differently-named site, one
report scoped to another site) against a parse failure, both at status
200. -/
theorem lookup_missing_vs_malformed_indistinguishable_witness :
    (get_site_id ⟨200, some [⟨some "B", some 3⟩]⟩ "A"
        = get_site_id ⟨200, none⟩ "A" ∧
      get_site_id ⟨200, none⟩ "A" = none) ∧
    (get_existing_report ⟨200, some [⟨some 3, [9]⟩]⟩ 5
        = get_existing_report ⟨200, none⟩ 5 ∧
      get_existing_report ⟨200, none⟩ 5 = none) :=
  lookup_missing_vs_malformed_indistinguishable "A" [⟨some "B", some 3⟩] 5
    [⟨some 3, [9]⟩] 200 200 200 200 (by decide) (by decide) (by decide)
    (by decide) (by decide) (by decide)

/-- C9: when `get_existing_report` yields the falsy id `0` for the first
report scoped to the site, `create_report` behaves exactly as if no report
existed — it issues the creation POST (second component `true`) and its
whole outcome equals a run against an empty listing — because reuse is
gated on `if report_id:`, i.e. Python truthiness, not presence. -/
theorem create_report_falsy_id_creates
    (listResp : HttpResponse (List ReportEntry))
    (postResp : HttpResponse ReportPostBody) (site_id scan_id : Int)
    (name file_format template : String)
    (h : get_existing_report listResp site_id = some 0) :
    create_report listResp postResp site_id scan_id name file_format template
      = create_report ⟨200, some []⟩ postResp site_id scan_id name
          file_format template ∧
    (create_report listResp postResp site_id scan_id name file_format
        template).2 = true := by
  have hempty :
      get_existing_report (⟨200, some []⟩ : HttpResponse (List ReportEntry))
        site_id = none := rfl
  rw [create_report, create_report, h, hempty]
  exact ⟨by simp, createReportPost_snd postResp⟩

/-- C9 at a concrete listing whose first report scoped to site 5 has id 0:
the creation POST is issued and returns the new id 9. -/
theorem create_report_falsy_id_creates_witness :
    create_report ⟨200, some [⟨some 0, [5]⟩]⟩ ⟨201, some ⟨some 9⟩⟩ 5 3
        "A" "pdf" "tmpl"
      = create_report ⟨200, some []⟩ ⟨201, some ⟨some 9⟩⟩ 5 3
          "A" "pdf" "tmpl" ∧
    (create_report ⟨200, some [⟨some 0, [5]⟩]⟩ ⟨201, some ⟨some 9⟩⟩ 5 3
        "A" "pdf" "tmpl").2 = true :=
  create_report_falsy_id_creates ⟨200, some [⟨some 0, [5]⟩]⟩
    ⟨201, some ⟨some 9⟩⟩ 5 3 "A" "pdf" "tmpl" (by decide)

theorem scan_wait_absorbs (l : List (HttpResponse ScanStatusBody))
    (h : ∀ r ∈ l, scanObservedTerminal r = false) :
    wait_for_scan_completion l = none := by
  induction l with
  | nil => rfl
  | cons r rest ih =>
    have hr := h r (List.mem_cons_self r rest)
    have hrest := ih fun x hx => h x (List.mem_cons_of_mem r hx)
    rcases r with ⟨s, b⟩
    by_cases hs : s ∈ okStatus
    · cases b with
      | none => simp [wait_for_scan_completion, hs, hrest]
      | some scan_json =>
        simp only [scanObservedTerminal, Bool.and_eq_false_iff,
          decide_eq_false_iff_not] at hr
        have hj : ¬(scan_json.status = some "finished"
            ∨ scan_json.status = some "stopped") := by
          rcases hr with hr | hr
          · exact absurd hs hr
          · simpa using hr
        simp [wait_for_scan_completion, hs, hj, hrest]
    · simp [wait_for_scan_completion, hs, hrest]

/-- C8: a poll-response sequence none of whose polls observes a terminal
scan status — unrecognized statuses, parse failures and non-2xx transport
failures included — is wholly absorbed: `wait_for_scan_completion` never
returns within it and keeps polling. -/
theorem scan_wait_never_returns_without_terminal
    (l : List (HttpResponse ScanStatusBody))
    (h : ∀ r ∈ l, scanObservedTerminal r = false) :
    wait_for_scan_completion l = none :=
  scan_wait_absorbs l h

/-- C8 at a concrete sequence mixing a transport failure, an unrecognized
status, a non-terminal status and a parse failure. -/
theorem scan_wait_never_returns_without_terminal_witness :
    wait_for_scan_completion
        [⟨500, none⟩, ⟨200, some ⟨some "integrating"⟩⟩,
          ⟨200, some ⟨some "running"⟩⟩, ⟨200, none⟩, ⟨404, some ⟨none⟩⟩]
      = none :=
  scan_wait_never_returns_without_terminal
    [⟨500, none⟩, ⟨200, some ⟨some "integrating"⟩⟩,
      ⟨200, some ⟨some "running"⟩⟩, ⟨200, none⟩, ⟨404, some ⟨none⟩⟩]
    (by decide)

theorem scan_wait_first_terminal (l : List (HttpResponse ScanStatusBody)) :
    ∀ (k : Nat) (hk : k < l.length),
      scanObservedTerminal (l.get ⟨k, hk⟩) = true →
      (∀ j, ∀ hj : j < k,
        scanObservedTerminal (l.get ⟨j, lt_trans hj hk⟩) = false) →
      wait_for_scan_completion l = some (k + 1, none) := by
  induction l with
  | nil => intro k hk; exact absurd hk (by simp)
  | cons r rest ih =>
    intro k hk hterm hbefore
    cases k with
    | zero =>
      rcases r with ⟨s, b⟩
      cases b with
      | none => simp [scanObservedTerminal] at hterm
      | some scan_json =>
        simp only [List.get] at hterm
        simp only [scanObservedTerminal, Bool.and_eq_true,
          decide_eq_true_eq] at hterm
        have hj : scan_json.status = some "finished"
            ∨ scan_json.status = some "stopped" := by
          simpa using hterm.2
        simp [wait_for_scan_completion, hterm.1, hj]
    | succ k' =>
      have h0 : scanObservedTerminal r = false :=
        hbefore 0 (Nat.succ_pos k')
      have hterm' : scanObservedTerminal
          (rest.get ⟨k', Nat.lt_of_succ_lt_succ hk⟩) = true := hterm
      have hbefore' : ∀ j, ∀ hj : j < k',
          scanObservedTerminal
            (rest.get ⟨j, lt_trans hj (Nat.lt_of_succ_lt_succ hk)⟩)
          = false := by
        intro j hj
        exact hbefore (j + 1) (Nat.succ_lt_succ hj)
      have hrest := ih k' (Nat.lt_of_succ_lt_succ hk) hterm' hbefore'
      rcases r with ⟨s, b⟩
      by_cases hs : s ∈ okStatus
      · cases b with
        | none => simp [wait_for_scan_completion, hs, hrest]
        | some scan_json =>
          simp only [scanObservedTerminal, Bool.and_eq_false_iff,
            decide_eq_false_iff_not] at h0
          have hj : ¬(scan_json.status = some "finished"
              ∨ scan_json.status = some "stopped") := by
            rcases h0 with h0 | h0
            · exact absurd hs h0
            · simpa using h0
          simp [wait_for_scan_completion, hs, hj, hrest]
      · simp [wait_for_scan_completion, hs, hrest]

theorem report_wait_first_complete
    (l : List (HttpResponse ReportHistoryBody)) :
    ∀ (k : Nat) (hk : k < l.length) (b : ReportHistoryBody),
      (l.get ⟨k, hk⟩).body = some b →
      reportObservedComplete (l.get ⟨k, hk⟩) = true →
      (∀ j, ∀ hj : j < k,
        reportObservedComplete (l.get ⟨j, lt_trans hj hk⟩) = false) →
      wait_for_report_completion l = some (k + 1, b.generated) := by
  induction l with
  | nil => intro k hk; exact absurd hk (by simp)
  | cons r rest ih =>
    intro k hk b hbody hterm hbefore
    cases k with
    | zero =>
      rcases r with ⟨s, rb⟩
      simp only [List.get] at hbody hterm
      subst hbody
      simp only [reportObservedComplete, Bool.and_eq_true,
        decide_eq_true_eq] at hterm
      have hj : b.status = some "complete" := by simpa using hterm.2
      simp [wait_for_report_completion, hterm.1, hj]
    | succ k' =>
      have h0 : reportObservedComplete r = false :=
        hbefore 0 (Nat.succ_pos k')
      have hrest := ih k' (Nat.lt_of_succ_lt_succ hk) b hbody hterm
        (fun j hj => hbefore (j + 1) (Nat.succ_lt_succ hj))
      rcases r with ⟨s, rb⟩
      by_cases hs : s ∈ okStatus
      · cases rb with
        | none => simp [wait_for_report_completion, hs, hrest]
        | some report_json =>
          simp only [reportObservedComplete, Bool.and_eq_false_iff,
            decide_eq_false_iff_not] at h0
          have hj : ¬report_json.status = some "complete" := by
            rcases h0 with h0 | h0
            · exact absurd hs h0
            · simpa using h0
          simp [wait_for_report_completion, hs, hj, hrest]
      · simp [wait_for_report_completion, hs, hrest]

/-- C2 (counterexample to the claim as stated): on the sequence
`["running", "finished"]` the scan wait does return at the second poll —
but its Python return value is `None` (the terminal branch is a bare
`return`), not the observed status `"finished"` that the claim says is
returned unchanged. -/
theorem scan_wait_payload_counterexample :
    wait_for_scan_completion
        [⟨200, some ⟨some "running"⟩⟩, ⟨200, some ⟨some "finished"⟩⟩]
      ≠ some (2, some "finished") ∧
    wait_for_scan_completion
        [⟨200, some ⟨some "running"⟩⟩, ⟨200, some ⟨some "finished"⟩⟩]
      = some (2, none) := by
  refine ⟨by decide, by decide⟩

/-- C2 (amended): on the first poll observing a terminal value, both wait
loops return at exactly that poll. The report wait returns that poll's
`generated` timestamp unchanged; the scan wait returns no payload (`None`),
the observed status being only printed. -/
theorem wait_returns_at_first_terminal_poll :
    (∀ (l : List (HttpResponse ScanStatusBody)) (k : Nat)
        (hk : k < l.length),
      scanObservedTerminal (l.get ⟨k, hk⟩) = true →
      (∀ j, ∀ hj : j < k,
        scanObservedTerminal (l.get ⟨j, lt_trans hj hk⟩) = false) →
      wait_for_scan_completion l = some (k + 1, none)) ∧
    (∀ (l : List (HttpResponse ReportHistoryBody)) (k : Nat)
        (hk : k < l.length) (b : ReportHistoryBody),
      (l.get ⟨k, hk⟩).body = some b →
      reportObservedComplete (l.get ⟨k, hk⟩) = true →
      (∀ j, ∀ hj : j < k,
        reportObservedComplete (l.get ⟨j, lt_trans hj hk⟩) = false) →
      wait_for_report_completion l = some (k + 1, b.generated)) :=
  ⟨fun l => scan_wait_first_terminal l, fun l => report_wait_first_complete l⟩

/-- C2 (amended) at concrete sequences: the scan wait returns at poll 2 of
`["running", "finished"]` with no payload; the report wait returns at poll 3
of `["running", transport failure, "complete"]` with that poll's
`generated` timestamp. -/
theorem wait_returns_at_first_terminal_poll_witness :
    wait_for_scan_completion
        [⟨200, some ⟨some "running"⟩⟩, ⟨200, some ⟨some "finished"⟩⟩]
      = some (2, none) ∧
    wait_for_report_completion
        [⟨200, some ⟨some "running", none⟩⟩, ⟨500, none⟩,
          ⟨200, some ⟨some "complete", some "2024-01-01T10:00:00Z"⟩⟩]
      = some (3, some "2024-01-01T10:00:00Z") :=
  ⟨wait_returns_at_first_terminal_poll.1
      [⟨200, some ⟨some "running"⟩⟩, ⟨200, some ⟨some "finished"⟩⟩]
      1 (by decide) (by decide)
      (fun j hj => by interval_cases j; rfl),
    wait_returns_at_first_terminal_poll.2
      [⟨200, some ⟨some "running", none⟩⟩, ⟨500, none⟩,
        ⟨200, some ⟨some "complete", some "2024-01-01T10:00:00Z"⟩⟩]
      2 (by decide) ⟨some "complete", some "2024-01-01T10:00:00Z"⟩
      (by decide) (by decide)
      (fun j hj => by interval_cases j <;> rfl)⟩

/-- C3: when the first scans page carries a link with relation `"last"`,
`get_last_scan_id` re-fetches that linked page and returns the id of the
last element of *that* page's `resources`; when no such link exists it
re-reads the first page and returns the id of its last element. -/
theorem get_last_scan_id_pagination :
    (∀ (fetch : String → HttpResponse ScanListing) (scans_url : String)
        (s₁ s₂ : Nat) (j₁ j₂ : ScanListing) (lnk : Link) (r : ScanResource),
      fetch scans_url = ⟨s₁, some j₁⟩ → s₁ ∈ okStatus →
      j₁.links.find? (fun link => link.rel == "last") = some lnk →
      fetch lnk.href = ⟨s₂, some j₂⟩ → s₂ ∈ okStatus →
      j₂.resources.getLast? = some r →
      get_last_scan_id fetch scans_url = r.id) ∧
    (∀ (fetch : String → HttpResponse ScanListing) (scans_url : String)
        (s₁ : Nat) (j₁ : ScanListing) (r : ScanResource),
      fetch scans_url = ⟨s₁, some j₁⟩ → s₁ ∈ okStatus →
      j₁.links.find? (fun link => link.rel == "last") = none →
      j₁.resources.getLast? = some r →
      get_last_scan_id fetch scans_url = r.id) := by
  constructor
  · intro fetch scans_url s₁ s₂ j₁ j₂ lnk r h1 hs1 hfind h2 hs2 hlast
    rw [get_last_scan_id, h1]
    simp [hs1, hfind, h2, hs2, hlast]
  · intro fetch scans_url s₁ j₁ r h1 hs1 hfind hlast
    rw [get_last_scan_id, h1]
    simp [hs1, hfind, h1, hlast]

/-- A two-page service snapshot: the listing url answers page 1, which
links to `"last-page"`; `"last-page"` answers resources with ids 10, 11,
12. -/
def fetchTwoPages : String → HttpResponse ScanListing := fun u =>
  if u == "last-page" then
    ⟨200, some ⟨[], [⟨some 10⟩, ⟨some 11⟩, ⟨some 12⟩]⟩⟩
  else ⟨200, some ⟨[⟨"last", "last-page"⟩], [⟨some 1⟩, ⟨some 2⟩]⟩⟩

/-- A single-page service snapshot with no `"last"` link and resources with
ids 7 and 8. -/
def fetchOnePage : String → HttpResponse ScanListing := fun _ =>
  ⟨200, some ⟨[⟨"first", "p1"⟩], [⟨some 7⟩, ⟨some 8⟩]⟩⟩

/-- C3 at the two concrete snapshots: with a `"last"` link the result is
the last id of the linked page (12, not an id from page 1); without one it
is the last id of the first page (8). -/
theorem get_last_scan_id_pagination_witness :
    get_last_scan_id fetchTwoPages "scans" = some 12 ∧
    get_last_scan_id fetchOnePage "scans" = some 8 :=
  ⟨get_last_scan_id_pagination.1 fetchTwoPages "scans" 200 200
      ⟨[⟨"last", "last-page"⟩], [⟨some 1⟩, ⟨some 2⟩]⟩
      ⟨[], [⟨some 10⟩, ⟨some 11⟩, ⟨some 12⟩]⟩
      ⟨"last", "last-page"⟩ ⟨some 12⟩ rfl (by decide) rfl rfl (by decide)
      rfl,
    get_last_scan_id_pagination.2 fetchOnePage "scans" 200
      ⟨[⟨"first", "p1"⟩], [⟨some 7⟩, ⟨some 8⟩]⟩ ⟨some 8⟩ rfl (by decide)
      rfl rfl⟩

/-- C1: reconciliation is idempotent. Sites: when a first reconciliation
pass (`create_site` then `get_site_id`, as the module-level flow runs them)
against the service model established id `i`, a second pass issues no
creation POST, returns the same id `i`, and leaves the service unchanged.
Reports: when no report scoped to the site exists and the service's next id
is truthy, the first `create_report` creates and returns that id, and a
second `create_report` issues no POST and returns the same id with the
service unchanged. -/
theorem reconcile_twice_idempotent :
    (∀ (st0 : SitesServer) (name description target_ip template_id : String)
        (i : Int) (p : Bool) (st1 : SitesServer),
      reconcile_site st0 name description target_ip template_id
          = (some i, p, st1) →
      reconcile_site st1 name description target_ip template_id
          = (some i, false, st1)) ∧
    (∀ (st0 : ReportsServer) (site_id scan_id : Int)
        (name file_format template : String),
      (∀ e ∈ st0.reports, site_id ∉ e.scope) → st0.nextId ≠ 0 →
      create_report_st st0 site_id scan_id name file_format template
          = (.ok (some st0.nextId), true,
              ⟨st0.reports ++ [⟨some st0.nextId, [site_id]⟩],
                st0.nextId + 1⟩) ∧
      create_report_st
            ⟨st0.reports ++ [⟨some st0.nextId, [site_id]⟩], st0.nextId + 1⟩
            site_id scan_id name file_format template
          = (.ok (some st0.nextId), false,
              ⟨st0.reports ++ [⟨some st0.nextId, [site_id]⟩],
                st0.nextId + 1⟩)) := by
  constructor
  · intro st0 name description target_ip template_id i p st1 h
    rcases hc : create_site_st st0 name description target_ip template_id
      with ⟨⟨rv, pb⟩, st'⟩
    rw [reconcile_site, hc] at h
    simp only [Prod.mk.injEq] at h
    obtain ⟨hg, hp, hst⟩ := h
    subst hst
    have hc1 : create_site_st st' name description target_ip template_id
        = ((none, false), st') := by
      rw [create_site_st, hg]
    rw [reconcile_site, hc1]
    simp [hg]
  · intro st0 site_id scan_id name file_format template hscope hid
    have hlook : get_existing_report (serverListReports st0) site_id
        = none := by
      simp only [get_existing_report, serverListReports, okStatus]
      rw [if_pos (by simp)]
      exact findReportId_eq_none st0.reports site_id hscope
    constructor
    · rw [create_report_st, hlook]
      simp [serverCreateReport, createReportPost, report_data, okStatus]
    · have hlook2 : get_existing_report
          (serverListReports
            ⟨st0.reports ++ [⟨some st0.nextId, [site_id]⟩], st0.nextId + 1⟩)
          site_id = some st0.nextId := by
        simp only [get_existing_report, serverListReports, okStatus]
        rw [if_pos (by simp)]
        rw [findReportId_append st0.reports _ site_id hscope]
        simp [findReportId]
      rw [create_report_st, hlook2]
      simp [hid]

/-- C1 at concrete states: sites starting from an empty service (first pass
creates site id 1, second pass returns 1 without creating), reports
starting from an empty service with next id 1 and site 5. -/
theorem reconcile_twice_idempotent_witness :
    reconcile_site ⟨[⟨some "A", some 1⟩], 2⟩ "A" "d" "10.0.0.1" "t"
      = (some 1, false, ⟨[⟨some "A", some 1⟩], 2⟩) ∧
    (create_report_st ⟨[], 1⟩ 5 3 "A" "pdf" "t"
        = (.ok (some 1), true, ⟨[⟨some 1, [5]⟩], 2⟩) ∧
      create_report_st ⟨[⟨some 1, [5]⟩], 2⟩ 5 3 "A" "pdf" "t"
        = (.ok (some 1), false, ⟨[⟨some 1, [5]⟩], 2⟩)) :=
  ⟨reconcile_twice_idempotent.1 ⟨[], 1⟩ "A" "d" "10.0.0.1" "t" 1 true
      ⟨[⟨some "A", some 1⟩], 2⟩ (by decide),
    reconcile_twice_idempotent.2 ⟨[], 1⟩ 5 3 "A" "pdf" "t"
      (by simp) (by decide)⟩

end Nexpose
